import Mathlib

/-!
# kubewatch: pkg/controller/controller.go

A shallow embedding of the supervisor in `pkg/controller/controller.go`:
`Controller` and the five watch functions it calls.  Calls into libraries are
recorded as effects on an explicit `World`; the values the source passes to
them are kept as data so that they can be inspected.

Conventions.
* `factory.ClientConfig()` and `http.ListenAndServe` are inputs of the run
  (`Env`): the first yields a configuration or an error, the second either
  serves forever or returns an error.
* `logrus.Fatal` logs and exits the process with status 1.
* `client.NewOrDie` is taken at its Go signature (it returns a client); a
  panic raised inside the library is outside this model.
* every informer construction allocates one fresh identity, shared by the
  store and the controller it returns.
-/

namespace Kubewatch

/-! ## Library vocabulary -/

/-- Go `time.Duration`: a signed count of nanoseconds. -/
abbrev Duration := Int

namespace time

def Nanosecond : Duration := 1
def Microsecond : Duration := 1000 * Nanosecond
def Millisecond : Duration := 1000 * Microsecond
def Second : Duration := 1000 * Millisecond
def Minute : Duration := 60 * Second

end time

namespace api

/-- Constant `api.NamespaceAll`: the empty string selects every namespace. -/
def NamespaceAll : String := ""

/-- Type `api.ListOptions`, the options a reflector hands to List and Watch. -/
structure ListOptions where
  LabelSelector : String
  FieldSelector : String
  Watch : Bool
  ResourceVersion : String
  TimeoutSeconds : Option Int
deriving DecidableEq, Repr

end api

namespace fields

/-- Type `fields.Selector`: either the selector matching every object or a
requirement on one field. -/
inductive Selector where
  | everything
  | oneTerm (field value : String)
deriving DecidableEq, Repr

/-- Function `fields.Everything()`. -/
def Everything : Selector := Selector.everything

end fields

/-- An error value. -/
structure Error where
  msg : String
deriving DecidableEq, Repr

/-- The client configuration returned by `factory.ClientConfig()`. -/
structure KubeConfig where
  Host : String
deriving DecidableEq, Repr

/-- A `*client.Client`. -/
structure Client where
  config : KubeConfig
deriving DecidableEq, Repr

/-- API group a request is sent to: the legacy core group or `Extensions()`. -/
inductive APIGroup where
  | core
  | extensions
deriving DecidableEq, Repr

inductive Verb where
  | list
  | watch
deriving DecidableEq, Repr

/-- What one List or Watch call addresses.  `namespaceScope` is `none` when
the accessor takes no namespace argument, `fieldSelector` is `none` when the
call passes only the caller's options. -/
structure Request where
  client : Client
  verb : Verb
  group : APIGroup
  resource : String
  namespaceScope : Option String
  fieldSelector : Option fields.Selector
  options : api.ListOptions
deriving DecidableEq, Repr

/-- The Go type of the expected object (`&api.Pod{}`, ...). -/
inductive ObjType where
  | Pod
  | Service
  | ReplicationController
  | Deployment
  | ReplicaSet
  | ThirdPartyResource
deriving DecidableEq, Repr

namespace cache

/-- Type `cache.ListWatch`. -/
structure ListWatch where
  ListFunc : api.ListOptions → Request
  WatchFunc : api.ListOptions → Request

/-- Function `cache.NewListWatchFromClient(c, resource, namespace, fieldSelector)`:
both requests go to the given resource, namespace and field selector. -/
def NewListWatchFromClient (c : Client) (resource : String) (namespaceScope : String)
    (fieldSelector : fields.Selector) : ListWatch where
  ListFunc := fun options =>
    { client := c, verb := Verb.list, group := APIGroup.core, resource := resource,
      namespaceScope := some namespaceScope, fieldSelector := some fieldSelector,
      options := options }
  WatchFunc := fun options =>
    { client := c, verb := Verb.watch, group := APIGroup.core, resource := resource,
      namespaceScope := some namespaceScope, fieldSelector := some fieldSelector,
      options := options }

/-- Index functions; `MetaNamespaceIndexFunc` indexes an object by its namespace. -/
inductive IndexFunc where
  | MetaNamespaceIndexFunc
  | other (name : String)
deriving DecidableEq, Repr

/-- Type `cache.Indexers`: index name to index function. -/
abbrev Indexers := List (String × IndexFunc)

/-- Constant `cache.NamespaceIndex`. -/
def NamespaceIndex : String := "namespace"

/-- A `cache.Store` value: the identity of the store and the secondary
indexes it was constructed with (none for a plain store). -/
structure Store where
  id : Nat
  indexers : Indexers
deriving DecidableEq, Repr

end cache

namespace handlers

/-- The entry points of `handlers.Handler` that the controller binds.  A call
acts on the handler's own state `σ`. -/
structure Handler (Obj σ : Type) where
  ObjectCreated : Obj → σ → σ
  ObjectDeleted : Obj → σ → σ
  ObjectUpdated : Obj → Obj → σ → σ

end handlers

namespace wait

/-- A stop channel; `NeverStop` is never closed. -/
inductive StopCh where
  | NeverStop
  | closable (id : Nat)
deriving DecidableEq, Repr

end wait

namespace framework

/-- Type `framework.ResourceEventHandlerFuncs`; an unset callback is `none`. -/
structure ResourceEventHandlerFuncs (Obj σ : Type) where
  AddFunc : Option (Obj → σ → σ)
  UpdateFunc : Option (Obj → Obj → σ → σ)
  DeleteFunc : Option (Obj → σ → σ)

/-- The controller an informer constructor returns, with everything it was
constructed from and the store it feeds. -/
structure Controller (Obj σ : Type) where
  id : Nat
  lw : cache.ListWatch
  objType : ObjType
  resyncPeriod : Duration
  h : ResourceEventHandlerFuncs Obj σ
  clientState : cache.Store

end framework

/-! ## World -/

/-- Calls with an effect outside the function that makes them. -/
inductive Effect (Obj σ : Type) where
  | fatal (err : Error)
  | newClient (cfg : KubeConfig)
  | goRun (c : framework.Controller Obj σ) (stopCh : wait.StopCh)
  | listenAndServe (addr : String)

/-- The state threaded through a run: the next fresh identity and the
effects so far, oldest first. -/
structure World (Obj σ : Type) where
  next : Nat
  trace : List (Effect Obj σ)

/-- The world of a process that has done nothing yet. -/
def World.fresh (Obj σ : Type) (n : Nat) : World Obj σ := { next := n, trace := [] }

def World.emit {Obj σ : Type} (w : World Obj σ) (e : Effect Obj σ) : World Obj σ :=
  { w with trace := w.trace ++ [e] }

/-- How a call of `Controller` ends. -/
inductive Outcome where
  | returned
  | exited (status : Nat)
  | serving
deriving DecidableEq, Repr

/-- Inputs of a run that come from outside the process. -/
structure Env where
  ClientConfig : Except Error KubeConfig
  ListenAndServe : String → Option Error

namespace logrus

/-- Function `logrus.Fatal(err)`: log, then `os.Exit(1)`. -/
def Fatal {Obj σ : Type} (err : Error) (w : World Obj σ) : Outcome × World Obj σ :=
  (Outcome.exited 1, w.emit (Effect.fatal err))

end logrus

namespace client

/-- Function `client.NewOrDie(config)`. -/
def NewOrDie {Obj σ : Type} (cfg : KubeConfig) (w : World Obj σ) : Client × World Obj σ :=
  ({ config := cfg }, w.emit (Effect.newClient cfg))

end client

namespace framework

/-- Function `framework.NewInformer(lw, objType, resyncPeriod, h)`: a plain store
and the controller that fills it. -/
def NewInformer {Obj σ : Type} (lw : cache.ListWatch) (objType : ObjType)
    (resyncPeriod : Duration) (h : ResourceEventHandlerFuncs Obj σ) (w : World Obj σ) :
    (cache.Store × Controller Obj σ) × World Obj σ :=
  let clientState : cache.Store := { id := w.next, indexers := [] }
  ((clientState,
    { id := w.next, lw := lw, objType := objType, resyncPeriod := resyncPeriod, h := h,
      clientState := clientState }),
   { w with next := w.next + 1 })

/-- Function `framework.NewIndexerInformer(lw, objType, resyncPeriod, h, indexers)`:
an indexer built with the given indexers and the controller that fills it. -/
def NewIndexerInformer {Obj σ : Type} (lw : cache.ListWatch) (objType : ObjType)
    (resyncPeriod : Duration) (h : ResourceEventHandlerFuncs Obj σ)
    (indexers : cache.Indexers) (w : World Obj σ) :
    (cache.Store × Controller Obj σ) × World Obj σ :=
  let clientState : cache.Store := { id := w.next, indexers := indexers }
  ((clientState,
    { id := w.next, lw := lw, objType := objType, resyncPeriod := resyncPeriod, h := h,
      clientState := clientState }),
   { w with next := w.next + 1 })

/-- Statement `go eController.Run(stopCh)`. -/
def goRun {Obj σ : Type} (c : Controller Obj σ) (stopCh : wait.StopCh) (w : World Obj σ) :
    World Obj σ :=
  w.emit (Effect.goRun c stopCh)

end framework

namespace config

/-- The toggles `conf.Resource.*` that `Controller` reads. -/
structure Resource where
  Pod : Bool
  Services : Bool
  ReplicationController : Bool
  Deployment : Bool
  ReplicaSet : Bool
deriving DecidableEq, Repr

end config

/-- Modelled from the spec: the declaration of `config.Config` is not part of
the source file.  The configuration surface is "a set of boolean toggles, one
per resource kind" and a resync period that "is a duration value, defaulted if
unset"; the toggles are the five that `Controller` reads. -/
structure Config where
  Resource : config.Resource
  ResyncPeriod : Option Duration
deriving DecidableEq, Repr

/-! ## The watch functions -/

variable {Obj σ : Type}

def watchDeployments (client : Client) (store : Option cache.Store)
    (eventHandler : handlers.Handler Obj σ) (w : World Obj σ) : cache.Store × World Obj σ :=
  let _ := store
  let resyncPeriod : Duration := 30 * time.Minute
  let ((eStore, eController), w) := framework.NewIndexerInformer
    { ListFunc := fun options =>
        { client := client, verb := Verb.list, group := APIGroup.extensions,
          resource := "deployments", namespaceScope := some api.NamespaceAll,
          fieldSelector := none, options := options }
      WatchFunc := fun options =>
        { client := client, verb := Verb.watch, group := APIGroup.extensions,
          resource := "deployments", namespaceScope := some api.NamespaceAll,
          fieldSelector := none, options := options } }
    ObjType.Deployment
    resyncPeriod
    { AddFunc := some eventHandler.ObjectCreated
      UpdateFunc := some eventHandler.ObjectUpdated
      DeleteFunc := some eventHandler.ObjectDeleted }
    [(cache.NamespaceIndex, cache.IndexFunc.MetaNamespaceIndexFunc)]
    w
  let w := framework.goRun eController wait.StopCh.NeverStop w
  (eStore, w)

def watchThirdPartyResources (client : Client) (store : Option cache.Store)
    (eventHandler : handlers.Handler Obj σ) (w : World Obj σ) : cache.Store × World Obj σ :=
  let _ := store
  let resyncPeriod : Duration := 30 * time.Minute
  let ((eStore, eController), w) := framework.NewIndexerInformer
    { ListFunc := fun options =>
        { client := client, verb := Verb.list, group := APIGroup.extensions,
          resource := "thirdpartyresources", namespaceScope := none,
          fieldSelector := none, options := options }
      WatchFunc := fun options =>
        { client := client, verb := Verb.watch, group := APIGroup.extensions,
          resource := "thirdpartyresources", namespaceScope := none,
          fieldSelector := none, options := options } }
    ObjType.ThirdPartyResource
    resyncPeriod
    { AddFunc := some eventHandler.ObjectCreated
      UpdateFunc := some eventHandler.ObjectUpdated
      DeleteFunc := some eventHandler.ObjectDeleted }
    [(cache.NamespaceIndex, cache.IndexFunc.MetaNamespaceIndexFunc)]
    w
  let w := framework.goRun eController wait.StopCh.NeverStop w
  (eStore, w)

def watchPods (client : Client) (store : Option cache.Store)
    (eventHandler : handlers.Handler Obj σ) (w : World Obj σ) : cache.Store × World Obj σ :=
  let _ := store
  let watchlist := cache.NewListWatchFromClient client "pods" api.NamespaceAll fields.Everything
  let resyncPeriod : Duration := 30 * time.Minute
  let ((eStore, eController), w) := framework.NewInformer
    watchlist
    ObjType.Pod
    resyncPeriod
    { AddFunc := some eventHandler.ObjectCreated
      DeleteFunc := some eventHandler.ObjectDeleted
      UpdateFunc := some eventHandler.ObjectUpdated }
    w
  let w := framework.goRun eController wait.StopCh.NeverStop w
  (eStore, w)

def watchServices (client : Client) (store : Option cache.Store)
    (eventHandler : handlers.Handler Obj σ) (w : World Obj σ) : cache.Store × World Obj σ :=
  let _ := store
  let watchlist :=
    cache.NewListWatchFromClient client "services" api.NamespaceAll fields.Everything
  let resyncPeriod : Duration := 30 * time.Minute
  let ((eStore, eController), w) := framework.NewInformer
    watchlist
    ObjType.Service
    resyncPeriod
    { AddFunc := some eventHandler.ObjectCreated
      DeleteFunc := some eventHandler.ObjectDeleted
      UpdateFunc := some eventHandler.ObjectUpdated }
    w
  let w := framework.goRun eController wait.StopCh.NeverStop w
  (eStore, w)

def watchReplicationControllers (client : Client) (store : Option cache.Store)
    (eventHandler : handlers.Handler Obj σ) (w : World Obj σ) : cache.Store × World Obj σ :=
  let _ := store
  let watchlist := cache.NewListWatchFromClient client "replicationcontrollers"
    api.NamespaceAll fields.Everything
  let resyncPeriod : Duration := 30 * time.Minute
  let ((eStore, eController), w) := framework.NewInformer
    watchlist
    ObjType.ReplicationController
    resyncPeriod
    { AddFunc := some eventHandler.ObjectCreated
      DeleteFunc := some eventHandler.ObjectDeleted
      UpdateFunc := some eventHandler.ObjectUpdated }
    w
  let w := framework.goRun eController wait.StopCh.NeverStop w
  (eStore, w)

/-! ## The supervisor -/

def Controller (env : Env) (conf : Config) (eventHandler : handlers.Handler Obj σ)
    (w : World Obj σ) : Outcome × World Obj σ :=
  match env.ClientConfig with
  | Except.error err => logrus.Fatal err w
  | Except.ok kubeConfig =>
    let (kubeClient, w) := client.NewOrDie kubeConfig w
    let w :=
      if conf.Resource.Pod then
        let podsStore : Option cache.Store := none
        (watchPods kubeClient podsStore eventHandler w).2
      else w
    let w :=
      if conf.Resource.Services then
        let servicesStore : Option cache.Store := none
        (watchServices kubeClient servicesStore eventHandler w).2
      else w
    let w :=
      if conf.Resource.ReplicationController then
        let rcStore : Option cache.Store := none
        (watchReplicationControllers kubeClient rcStore eventHandler w).2
      else w
    let w :=
      if conf.Resource.Deployment then
        let depStore : Option cache.Store := none
        (watchDeployments kubeClient depStore eventHandler w).2
      else w
    let w :=
      if conf.Resource.ReplicaSet then
        let tprStore : Option cache.Store := none
        (watchThirdPartyResources kubeClient tprStore eventHandler w).2
      else w
    let w := w.emit (Effect.listenAndServe ":8081")
    match env.ListenAndServe ":8081" with
    | some err => logrus.Fatal err w
    | none => (Outcome.serving, w)

/-! ## Reading a trace -/

/-- The controllers started by `go eController.Run(...)`, in start order. -/
def launched : List (Effect Obj σ) → List (framework.Controller Obj σ)
  | [] => []
  | Effect.goRun c _ :: es => c :: launched es
  | Effect.fatal _ :: es => launched es
  | Effect.newClient _ :: es => launched es
  | Effect.listenAndServe _ :: es => launched es

/-- The addresses `http.ListenAndServe` was called with, in call order. -/
def listened : List (Effect Obj σ) → List String
  | [] => []
  | Effect.listenAndServe addr :: es => addr :: listened es
  | Effect.goRun _ _ :: es => listened es
  | Effect.fatal _ :: es => listened es
  | Effect.newClient _ :: es => listened es

/-- The configurations `client.NewOrDie` was called with, in call order. -/
def clientsCreated : List (Effect Obj σ) → List KubeConfig
  | [] => []
  | Effect.newClient cfg :: es => cfg :: clientsCreated es
  | Effect.goRun _ _ :: es => clientsCreated es
  | Effect.fatal _ :: es => clientsCreated es
  | Effect.listenAndServe _ :: es => clientsCreated es

/-- The number of toggles that are set. -/
def config.Resource.enabled (r : config.Resource) : Nat :=
  r.Pod.toNat + r.Services.toNat + r.ReplicationController.toNat + r.Deployment.toNat
    + r.ReplicaSet.toNat

/-- The errors `logrus.Fatal` was called with, in call order. -/
def fatals : List (Effect Obj σ) → List Error
  | [] => []
  | Effect.fatal err :: es => err :: fatals es
  | Effect.goRun _ _ :: es => fatals es
  | Effect.newClient _ :: es => fatals es
  | Effect.listenAndServe _ :: es => fatals es

/-- The effects that follow the first call of `http.ListenAndServe`. -/
def afterListen : List (Effect Obj σ) → List (Effect Obj σ)
  | [] => []
  | Effect.listenAndServe _ :: es => es
  | Effect.goRun _ _ :: es => afterListen es
  | Effect.fatal _ :: es => afterListen es
  | Effect.newClient _ :: es => afterListen es

/-- The resource kinds `Controller` starts, in start order, as its five
guards read them off the toggles. -/
def startedKinds (r : config.Resource) : List ObjType :=
  (if r.Pod then [ObjType.Pod] else [])
    ++ (if r.Services then [ObjType.Service] else [])
    ++ (if r.ReplicationController then [ObjType.ReplicationController] else [])
    ++ (if r.Deployment then [ObjType.Deployment] else [])
    ++ (if r.ReplicaSet then [ObjType.ThirdPartyResource] else [])

/-- The controllers a watch function starts when it runs in a world that has
done nothing yet and whose next identity is `id`. -/
def started (watch : World Obj σ → cache.Store × World Obj σ) (id : Nat) :
    List (framework.Controller Obj σ) :=
  launched (watch (World.fresh Obj σ id)).2.trace

/-- Controller `c` is what one of the five watch functions constructs and
starts for the handler `eh`. -/
def FromWatch (eh : handlers.Handler Obj σ) (c : framework.Controller Obj σ) : Prop :=
  ∃ (client : Client) (id : Nat),
    c ∈ started (watchPods client none eh) id
      ∨ c ∈ started (watchServices client none eh) id
      ∨ c ∈ started (watchReplicationControllers client none eh) id
      ∨ c ∈ started (watchDeployments client none eh) id
      ∨ c ∈ started (watchThirdPartyResources client none eh) id

/-! ## The engine behind an informer

The reflector, queue, store and dispatch loop of an informer are library code
that `controller.go` only constructs.  The definitions of this section follow
sections 3 and 4.2 to 4.4 of the specification. -/

namespace engine

/-- Modelled from the spec: the Object of section 3, "an opaque versioned
record identified by a Key"; `value` is the rest of the record, its
ResourceVersion included.  The library type is not part of the source file. -/
structure Object (V : Type) where
  key : String
  value : V
deriving DecidableEq, Repr

/-- Modelled from the spec: the kinds of a Delta (section 3). -/
inductive DeltaKind where
  | Added
  | Modified
  | Deleted
deriving DecidableEq, Repr

/-- Modelled from the spec: the Delta of section 3, "a tagged event
{kind: Added|Modified|Deleted, object: Object}" produced by the Reflector. -/
structure Delta (V : Type) where
  kind : DeltaKind
  object : Object V
deriving DecidableEq, Repr

/-- Modelled from the spec: the Delta Queue of section 4.2, the pending delta
lists per Key, in the order in which the Keys became pending. -/
abbrev DeltaQueue (V : Type) := List (String × List (Delta V))

/-- Modelled from the spec: `Push(delta)` of section 4.2.  "If a pending entry
already exists for that Key, the new delta is appended to that Key's own delta
list (not globally reordered)"; otherwise the Key becomes pending last. -/
def DeltaQueue.Push {V : Type} : DeltaQueue V → Delta V → DeltaQueue V
  | [], d => [(d.object.key, [d])]
  | (k, ds) :: q, d =>
    if k = d.object.key then (k, ds ++ [d]) :: q else (k, ds) :: DeltaQueue.Push q d

/-- Modelled from the spec: `Pop()` of section 4.2, which "returns all pending
deltas for one Key at once and clears its pending list"; the Key is the one
that became pending first.  `none` stands for a `Pop` that blocks. -/
def DeltaQueue.Pop {V : Type} : DeltaQueue V → Option ((String × List (Delta V)) × DeltaQueue V)
  | [] => none
  | p :: q => some (p, q)

/-- Modelled from the spec: the Handler boundary of section 6, entry point
`OnCreate(object)`; the informer delivers it through its add callback, if set. -/
def OnCreate {V : Type} (r : framework.ResourceEventHandlerFuncs (Object V) σ)
    (obj : Object V) (s : σ) : σ :=
  match r.AddFunc with
  | some f => f obj s
  | none => s

/-- Modelled from the spec: the Handler boundary of section 6, entry point
`OnUpdate(oldObject, newObject)`; the informer delivers it through its update
callback, if set. -/
def OnUpdate {V : Type} (r : framework.ResourceEventHandlerFuncs (Object V) σ)
    (oldObj newObj : Object V) (s : σ) : σ :=
  match r.UpdateFunc with
  | some f => f oldObj newObj s
  | none => s

/-- Modelled from the spec: the Handler boundary of section 6, entry point
`OnDelete(object)`; the informer delivers it through its delete callback, if
set. -/
def OnDelete {V : Type} (r : framework.ResourceEventHandlerFuncs (Object V) σ)
    (obj : Object V) (s : σ) : σ :=
  match r.DeleteFunc with
  | some f => f obj s
  | none => s

/-- Modelled from the spec: the Indexed Store of section 4.3 as the "mapping
from object key to last-known object value". -/
abbrev IndexedStore (V : Type) := String → Option (Object V)

/-- Modelled from the spec: `Get(Key) -> Object or absent` of section 4.3. -/
def IndexedStore.Get {V : Type} (st : IndexedStore V) (key : String) : Option (Object V) :=
  st key

/-- Modelled from the spec: `Apply(Key, resolved Object or tombstone)` of
section 4.3, which "replaces or removes the entry". -/
def IndexedStore.Apply {V : Type} (st : IndexedStore V) (key : String)
    (obj : Option (Object V)) : IndexedStore V :=
  fun k => if k = key then obj else st k

/-- Modelled from the spec: one cycle of the Dispatch Loop of section 4.4 for a
popped `(Key, [d1..dn])`.  The list is folded "into one effective terminal
state (the last delta's kind and object dominate)" and classified: no prior
entry and not `Deleted` gives Create; a prior entry and `Modified`/`Added`
gives Update with (old, new); `Deleted` gives Delete with the last-known
object, or nothing when the Store has no entry. -/
def dispatch {V : Type} (h : framework.ResourceEventHandlerFuncs (Object V) σ)
    (popped : String × List (Delta V)) (st : IndexedStore V × σ) : IndexedStore V × σ :=
  match popped.2.getLast? with
  | none => st
  | some d =>
    match d.kind, st.1.Get popped.1 with
    | DeltaKind.Deleted, none => st
    | DeltaKind.Deleted, some old => (st.1.Apply popped.1 none, OnDelete h old st.2)
    | DeltaKind.Added, none => (st.1.Apply popped.1 (some d.object), OnCreate h d.object st.2)
    | DeltaKind.Modified, none => (st.1.Apply popped.1 (some d.object), OnCreate h d.object st.2)
    | DeltaKind.Added, some old =>
      (st.1.Apply popped.1 (some d.object), OnUpdate h old d.object st.2)
    | DeltaKind.Modified, some old =>
      (st.1.Apply popped.1 (some d.object), OnUpdate h old d.object st.2)

/-- Modelled from the spec: the Dispatch Loop of section 4.4 draining the
Delta Queue: it pops and dispatches until `Pop` would block. -/
def drain {V : Type} (h : framework.ResourceEventHandlerFuncs (Object V) σ) :
    DeltaQueue V → IndexedStore V × σ → IndexedStore V × σ
  | [], st => st
  | p :: q, st => drain h q (dispatch h p st)

/-- Modelled from the spec: the Pipeline of section 3 behind controller `c`,
run on deltas that are all pushed before any drain: the queue is then drained
into the store and the handler callbacks of `c`. -/
def pipeline {V : Type} (c : framework.Controller (Object V) σ) (deltas : List (Delta V))
    (st : IndexedStore V × σ) : IndexedStore V × σ :=
  drain c.h (deltas.foldl DeltaQueue.Push []) st

/-- What a handler can be told. -/
inductive Event (Obj : Type) where
  | Create (obj : Obj)
  | Update (oldObj newObj : Obj)
  | Delete (obj : Obj)
deriving DecidableEq, Repr

/-- A handler that appends every call it receives to its state. -/
def recorder (Obj : Type) : handlers.Handler Obj (List (Event Obj)) where
  ObjectCreated := fun obj s => s ++ [Event.Create obj]
  ObjectDeleted := fun obj s => s ++ [Event.Delete obj]
  ObjectUpdated := fun oldObj newObj s => s ++ [Event.Update oldObj newObj]

/-- The claim's three deltas for key `K`. -/
def coalescingDeltas {V : Type} (K : String) (v1 v2 v3 : V) : List (Delta V) :=
  [{ kind := DeltaKind.Added, object := { key := K, value := v1 } },
   { kind := DeltaKind.Modified, object := { key := K, value := v2 } },
   { kind := DeltaKind.Modified, object := { key := K, value := v3 } }]

end engine

/-! ## Sample inputs -/

/-- An environment in which the client configuration loads and the listener
serves forever. -/
def sampleEnv : Env where
  ClientConfig := Except.ok { Host := "https://127.0.0.1:6443" }
  ListenAndServe := fun _ => none

/-- An environment in which the client configuration loads and the listener
cannot bind its port. -/
def busyPortEnv : Env where
  ClientConfig := Except.ok { Host := "https://127.0.0.1:6443" }
  ListenAndServe := fun _ => some { msg := "listen tcp :8081: bind: address already in use" }

/-- An environment in which loading the client configuration fails. -/
def noConfigEnv : Env where
  ClientConfig := Except.error { msg := "invalid configuration: no configuration has been provided" }
  ListenAndServe := fun _ => none

def allOff : config.Resource :=
  { Pod := false, Services := false, ReplicationController := false, Deployment := false,
    ReplicaSet := false }

def allOn : config.Resource :=
  { Pod := true, Services := true, ReplicationController := true, Deployment := true,
    ReplicaSet := true }

def confAllOn : Config := { Resource := allOn, ResyncPeriod := none }

def confAllOff : Config := { Resource := allOff, ResyncPeriod := none }

/-- Only the ReplicaSet toggle is set. -/
def confReplicaSetOnly : Config :=
  { Resource := { allOff with ReplicaSet := true }, ResyncPeriod := none }

/-- Only the Pod toggle is set, and the configuration asks for a resync
period of five minutes. -/
def confPodFiveMinutes : Config :=
  { Resource := { allOff with Pod := true }, ResyncPeriod := some (5 * time.Minute) }

def someOptions : api.ListOptions :=
  { LabelSelector := "", FieldSelector := "", Watch := false, ResourceVersion := "0",
    TimeoutSeconds := none }

/-- The configured resync period in the specification's words: the value of
the configuration surface if it sets one, thirty minutes otherwise. -/
def configuredResyncPeriod (conf : Config) : Duration :=
  match conf.ResyncPeriod with
  | some d => d
  | none => 30 * time.Minute

/-! ## Lemmas -/

theorem launched_objTypes (env : Env) (conf : Config) (eh : handlers.Handler Obj σ) (n : Nat)
    (cfg : KubeConfig) (hload : env.ClientConfig = Except.ok cfg) :
    (launched (Controller env conf eh (World.fresh Obj σ n)).2.trace).map (fun c => c.objType)
      = startedKinds conf.Resource := by
  obtain ⟨⟨a, b, c, d, e⟩, r⟩ := conf
  cases hl : env.ListenAndServe ":8081" <;>
  cases a <;> cases b <;> cases c <;> cases d <;> cases e <;>
    simp [Controller, hload, hl, watchPods, watchServices, watchReplicationControllers,
      watchDeployments, watchThirdPartyResources, framework.NewInformer,
      framework.NewIndexerInformer, framework.goRun, client.NewOrDie, logrus.Fatal,
      World.emit, World.fresh, launched, startedKinds]

theorem launched_ids (env : Env) (conf : Config) (eh : handlers.Handler Obj σ) (n : Nat)
    (cfg : KubeConfig) (hload : env.ClientConfig = Except.ok cfg) :
    (launched (Controller env conf eh (World.fresh Obj σ n)).2.trace).map (fun c => c.id)
      = List.map (fun i => n + i) (List.range conf.Resource.enabled) := by
  obtain ⟨⟨a, b, c, d, e⟩, r⟩ := conf
  cases hl : env.ListenAndServe ":8081" <;>
  cases a <;> cases b <;> cases c <;> cases d <;> cases e <;>
    simp [Controller, hload, hl, watchPods, watchServices, watchReplicationControllers,
      watchDeployments, watchThirdPartyResources, framework.NewInformer,
      framework.NewIndexerInformer, framework.goRun, client.NewOrDie, logrus.Fatal,
      World.emit, World.fresh, launched, config.Resource.enabled, List.range_succ, add_assoc]

theorem launched_of_error (env : Env) (conf : Config) (eh : handlers.Handler Obj σ)
    (w : World Obj σ) (err : Error) (hload : env.ClientConfig = Except.error err) :
    Controller env conf eh w = (Outcome.exited 1, w.emit (Effect.fatal err)) := by
  simp [Controller, hload, logrus.Fatal]

theorem launched_append (t1 t2 : List (Effect Obj σ)) :
    launched (t1 ++ t2) = launched t1 ++ launched t2 := by
  induction t1 with
  | nil => rfl
  | cons e t ih => cases e <;> simp [launched, ih]

theorem watchPods_launched (client : Client) (s : Option cache.Store)
    (eh : handlers.Handler Obj σ) (w : World Obj σ) :
    launched (watchPods client s eh w).2.trace
      = launched w.trace ++ started (watchPods client none eh) w.next := by
  simp [watchPods, started, framework.NewInformer, framework.goRun, World.emit, World.fresh,
    launched_append, launched]

theorem watchServices_launched (client : Client) (s : Option cache.Store)
    (eh : handlers.Handler Obj σ) (w : World Obj σ) :
    launched (watchServices client s eh w).2.trace
      = launched w.trace ++ started (watchServices client none eh) w.next := by
  simp [watchServices, started, framework.NewInformer, framework.goRun, World.emit,
    World.fresh, launched_append, launched]

theorem watchReplicationControllers_launched (client : Client) (s : Option cache.Store)
    (eh : handlers.Handler Obj σ) (w : World Obj σ) :
    launched (watchReplicationControllers client s eh w).2.trace
      = launched w.trace ++ started (watchReplicationControllers client none eh) w.next := by
  simp [watchReplicationControllers, started, framework.NewInformer, framework.goRun,
    World.emit, World.fresh, launched_append, launched]

theorem watchDeployments_launched (client : Client) (s : Option cache.Store)
    (eh : handlers.Handler Obj σ) (w : World Obj σ) :
    launched (watchDeployments client s eh w).2.trace
      = launched w.trace ++ started (watchDeployments client none eh) w.next := by
  simp [watchDeployments, started, framework.NewIndexerInformer, framework.goRun, World.emit,
    World.fresh, launched_append, launched]

theorem watchThirdPartyResources_launched (client : Client) (s : Option cache.Store)
    (eh : handlers.Handler Obj σ) (w : World Obj σ) :
    launched (watchThirdPartyResources client s eh w).2.trace
      = launched w.trace ++ started (watchThirdPartyResources client none eh) w.next := by
  simp [watchThirdPartyResources, started, framework.NewIndexerInformer, framework.goRun,
    World.emit, World.fresh, launched_append, launched]

theorem launched_Controller_fromWatch (env : Env) (conf : Config)
    (eh : handlers.Handler Obj σ) (n : Nat) :
    ∀ c ∈ launched (Controller env conf eh (World.fresh Obj σ n)).2.trace, FromWatch eh c := by
  cases hcfg : env.ClientConfig with
  | error err =>
    intro c hc
    simp [Controller, hcfg, logrus.Fatal, World.emit, World.fresh, launched] at hc
  | ok cfg =>
    obtain ⟨w1, hw1⟩ : ∃ w, w = (client.NewOrDie cfg (World.fresh Obj σ n)).2 := ⟨_, rfl⟩
    have h1 : ∀ c ∈ launched w1.trace, FromWatch eh c := by
      intro c hc
      simp [hw1, client.NewOrDie, World.emit, World.fresh, launched] at hc
    obtain ⟨w2, hw2⟩ : ∃ w, w = if conf.Resource.Pod then
        (watchPods { config := cfg } none eh w1).2 else w1 := ⟨_, rfl⟩
    have h2 : ∀ c ∈ launched w2.trace, FromWatch eh c := by
      intro c hc
      rw [hw2] at hc
      split at hc
      · rw [watchPods_launched, List.mem_append] at hc
        rcases hc with hc | hc
        · exact h1 c hc
        · exact ⟨_, _, Or.inl hc⟩
      · exact h1 c hc
    obtain ⟨w3, hw3⟩ : ∃ w, w = if conf.Resource.Services then
        (watchServices { config := cfg } none eh w2).2 else w2 := ⟨_, rfl⟩
    have h3 : ∀ c ∈ launched w3.trace, FromWatch eh c := by
      intro c hc
      rw [hw3] at hc
      split at hc
      · rw [watchServices_launched, List.mem_append] at hc
        rcases hc with hc | hc
        · exact h2 c hc
        · exact ⟨_, _, Or.inr (Or.inl hc)⟩
      · exact h2 c hc
    obtain ⟨w4, hw4⟩ : ∃ w, w = if conf.Resource.ReplicationController then
        (watchReplicationControllers { config := cfg } none eh w3).2 else w3 := ⟨_, rfl⟩
    have h4 : ∀ c ∈ launched w4.trace, FromWatch eh c := by
      intro c hc
      rw [hw4] at hc
      split at hc
      · rw [watchReplicationControllers_launched, List.mem_append] at hc
        rcases hc with hc | hc
        · exact h3 c hc
        · exact ⟨_, _, Or.inr (Or.inr (Or.inl hc))⟩
      · exact h3 c hc
    obtain ⟨w5, hw5⟩ : ∃ w, w = if conf.Resource.Deployment then
        (watchDeployments { config := cfg } none eh w4).2 else w4 := ⟨_, rfl⟩
    have h5 : ∀ c ∈ launched w5.trace, FromWatch eh c := by
      intro c hc
      rw [hw5] at hc
      split at hc
      · rw [watchDeployments_launched, List.mem_append] at hc
        rcases hc with hc | hc
        · exact h4 c hc
        · exact ⟨_, _, Or.inr (Or.inr (Or.inr (Or.inl hc)))⟩
      · exact h4 c hc
    obtain ⟨w6, hw6⟩ : ∃ w, w = if conf.Resource.ReplicaSet then
        (watchThirdPartyResources { config := cfg } none eh w5).2 else w5 := ⟨_, rfl⟩
    have h6 : ∀ c ∈ launched w6.trace, FromWatch eh c := by
      intro c hc
      rw [hw6] at hc
      split at hc
      · rw [watchThirdPartyResources_launched, List.mem_append] at hc
        rcases hc with hc | hc
        · exact h5 c hc
        · exact ⟨_, _, Or.inr (Or.inr (Or.inr (Or.inr hc)))⟩
      · exact h5 c hc
    have hfinal : launched (Controller env conf eh (World.fresh Obj σ n)).2.trace
        = launched w6.trace := by
      subst hw6 hw5 hw4 hw3 hw2 hw1
      simp only [Controller, hcfg]
      cases hl : env.ListenAndServe ":8081" <;>
        simp [logrus.Fatal, World.emit, launched_append, launched, client.NewOrDie]
    rw [hfinal]
    exact h6

theorem drain_pop {V : Type} (h : framework.ResourceEventHandlerFuncs (engine.Object V) σ)
    (q : engine.DeltaQueue V) (st : engine.IndexedStore V × σ) :
    engine.drain h q st
      = match engine.DeltaQueue.Pop q with
        | none => st
        | some (p, rest) => engine.drain h rest (engine.dispatch h p st) := by
  cases q <;> rfl

theorem fromWatch_stores (eh : handlers.Handler Obj σ) (c : framework.Controller Obj σ)
    (h : FromWatch eh c) : c.clientState.id = c.id := by
  obtain ⟨client, id, h | h | h | h | h⟩ := h <;>
    simp [started, watchPods, watchServices, watchReplicationControllers, watchDeployments,
      watchThirdPartyResources, framework.NewInformer, framework.NewIndexerInformer,
      framework.goRun, World.emit, World.fresh, launched] at h <;>
    subst h <;> rfl

theorem fromWatch_handler_funcs (eh : handlers.Handler Obj σ)
    (c : framework.Controller Obj σ) (h : FromWatch eh c) :
    c.h = { AddFunc := some eh.ObjectCreated, UpdateFunc := some eh.ObjectUpdated,
            DeleteFunc := some eh.ObjectDeleted } := by
  obtain ⟨client, id, h | h | h | h | h⟩ := h <;>
    simp [started, watchPods, watchServices, watchReplicationControllers, watchDeployments,
      watchThirdPartyResources, framework.NewInformer, framework.NewIndexerInformer,
      framework.goRun, World.emit, World.fresh, launched] at h <;>
    subst h <;> rfl

theorem fromWatch_resyncPeriod (eh : handlers.Handler Obj σ)
    (c : framework.Controller Obj σ) (h : FromWatch eh c) :
    c.resyncPeriod = 30 * time.Minute := by
  obtain ⟨client, id, h | h | h | h | h⟩ := h <;>
    simp [started, watchPods, watchServices, watchReplicationControllers, watchDeployments,
      watchThirdPartyResources, framework.NewInformer, framework.NewIndexerInformer,
      framework.goRun, World.emit, World.fresh, launched] at h <;>
    subst h <;> rfl

theorem enabled_le_five (r : config.Resource) : r.enabled ≤ 5 := by
  obtain ⟨a, b, c, d, e⟩ := r
  cases a <;> cases b <;> cases c <;> cases d <;> cases e <;> decide

theorem sample_launched_ne_nil :
    launched (Controller sampleEnv confAllOn (engine.recorder String)
      (World.fresh _ _ 0)).2.trace ≠ [] := by
  intro h
  have := congrArg List.length h
  revert this
  rw [← List.length_map, launched_objTypes sampleEnv confAllOn _ 0 _ rfl]
  decide

theorem launched_store_ids_nodup (env : Env) (conf : Config) (eh : handlers.Handler Obj σ)
    (n : Nat) :
    ((launched (Controller env conf eh (World.fresh Obj σ n)).2.trace).map
      (fun c => c.clientState.id)).Nodup := by
  have hmap : (launched (Controller env conf eh (World.fresh Obj σ n)).2.trace).map
      (fun c => c.clientState.id)
      = (launched (Controller env conf eh (World.fresh Obj σ n)).2.trace).map
          (fun c => c.id) := by
    apply List.map_congr_left
    intro c hc
    exact fromWatch_stores eh c (launched_Controller_fromWatch env conf eh n c hc)
  rw [hmap]
  cases hcfg : env.ClientConfig with
  | error err =>
    rw [launched_of_error env conf eh _ err hcfg]
    simp [World.emit, World.fresh, launched]
  | ok cfg =>
    rw [launched_ids env conf eh n cfg hcfg]
    apply List.Nodup.map
    · intro i j hij
      exact Nat.add_left_cancel hij
    · exact List.nodup_range _

/-! ## Claims -/

/-- C1, evaluated on the configuration that sets only the ReplicaSet toggle:
`Controller` starts exactly one pipeline, and that pipeline lists and watches
the third-party resources of the extensions group, with `ThirdPartyResource`
as its object type; no pipeline on replica sets is started. -/
theorem Controller_ReplicaSet_toggle_starts_thirdpartyresources :
    (launched (Controller sampleEnv confReplicaSetOnly (engine.recorder String)
        (World.fresh _ _ 0)).2.trace).map
      (fun c => ((c.lw.ListFunc someOptions).resource, (c.lw.WatchFunc someOptions).resource,
        c.objType))
      = [("thirdpartyresources", "thirdpartyresources", ObjType.ThirdPartyResource)] := by
  rfl

/-- C2: in every pipeline `Controller` starts, under any toggles, the add
callback is `eventHandler.ObjectCreated`, the update callback is
`eventHandler.ObjectUpdated` and the delete callback is
`eventHandler.ObjectDeleted` of the one handler `Controller` was given. -/
theorem Controller_callbacks_bound (env : Env) (conf : Config)
    (eventHandler : handlers.Handler Obj σ) (n : Nat)
    (c : framework.Controller Obj σ)
    (hc : c ∈ launched (Controller env conf eventHandler (World.fresh Obj σ n)).2.trace) :
    c.h.AddFunc = some eventHandler.ObjectCreated
      ∧ c.h.UpdateFunc = some eventHandler.ObjectUpdated
      ∧ c.h.DeleteFunc = some eventHandler.ObjectDeleted := by
  have h := fromWatch_handler_funcs eventHandler c
    (launched_Controller_fromWatch env conf eventHandler n c hc)
  rw [h]
  exact ⟨rfl, rfl, rfl⟩

/-- With every toggle set, the five pipelines all carry the three entry
points of the recording handler. -/
theorem Controller_callbacks_bound_witness :
    ∃ c ∈ launched (Controller sampleEnv confAllOn (engine.recorder String)
        (World.fresh _ _ 0)).2.trace,
      c.h.AddFunc = some (engine.recorder String).ObjectCreated
        ∧ c.h.UpdateFunc = some (engine.recorder String).ObjectUpdated
        ∧ c.h.DeleteFunc = some (engine.recorder String).ObjectDeleted :=
  ⟨_, List.head_mem sample_launched_ne_nil,
    Controller_callbacks_bound sampleEnv confAllOn (engine.recorder String) 0 _
      (List.head_mem sample_launched_ne_nil)⟩

/-- C3, as the code has it: for every configuration whose client configuration
loads, the number of pipelines `Controller` launches is the number of toggles
that are set, which is at most five; with no toggle set nothing is launched,
and with all five set the five watch functions are each launched once, on
five different constructions. -/
theorem Controller_launch_count (env : Env) (conf : Config)
    (eventHandler : handlers.Handler Obj σ) (n : Nat) (kubeConfig : KubeConfig)
    (hload : env.ClientConfig = Except.ok kubeConfig) :
    (launched (Controller env conf eventHandler (World.fresh Obj σ n)).2.trace).length
        = conf.Resource.enabled
      ∧ 0 ≤ conf.Resource.enabled ∧ conf.Resource.enabled ≤ 5
      ∧ (conf.Resource = allOff →
          launched (Controller env conf eventHandler (World.fresh Obj σ n)).2.trace = [])
      ∧ (conf.Resource = allOn →
          (launched (Controller env conf eventHandler (World.fresh Obj σ n)).2.trace).map
              (fun c => c.objType)
            = [ObjType.Pod, ObjType.Service, ObjType.ReplicationController,
               ObjType.Deployment, ObjType.ThirdPartyResource]
          ∧ ((launched (Controller env conf eventHandler (World.fresh Obj σ n)).2.trace).map
              (fun c => c.id)).Nodup) := by
  have hids := launched_ids env conf eventHandler n kubeConfig hload
  have hkinds := launched_objTypes env conf eventHandler n kubeConfig hload
  have hlen : (launched (Controller env conf eventHandler (World.fresh Obj σ n)).2.trace).length
      = conf.Resource.enabled := by
    have := congrArg List.length hids
    simpa using this
  refine ⟨hlen, Nat.zero_le _, ?_, ?_, ?_⟩
  · exact enabled_le_five conf.Resource
  · intro hoff
    apply List.eq_nil_of_length_eq_zero
    rw [hlen, hoff]
    rfl
  · intro hon
    refine ⟨?_, ?_⟩
    · rw [hkinds, hon]
      rfl
    · rw [hids]
      apply List.Nodup.map
      · intro i j hij
        exact Nat.add_left_cancel hij
      · exact List.nodup_range _

/-- With every toggle set and a loading client configuration, five pipelines
are launched. -/
theorem Controller_launch_count_witness :
    (launched (Controller sampleEnv confAllOn (engine.recorder String)
        (World.fresh _ _ 0)).2.trace).length = 5 :=
  (Controller_launch_count sampleEnv confAllOn (engine.recorder String) 0
    { Host := "https://127.0.0.1:6443" } rfl).1

/-- C3 fails as stated when loading the client configuration fails: all five
toggles are set, and `Controller` exits through `logrus.Fatal` having launched
no pipeline. -/
theorem Controller_launches_nothing_without_config :
    confAllOn.Resource.enabled = 5
      ∧ (launched (Controller noConfigEnv confAllOn (engine.recorder String)
          (World.fresh _ _ 0)).2.trace).length = 0
      ∧ (launched (Controller noConfigEnv confAllOn (engine.recorder String)
          (World.fresh _ _ 0)).2.trace).length ≠ confAllOn.Resource.enabled := by
  refine ⟨rfl, rfl, ?_⟩
  decide

/-- C4, as the code has it: every pipeline `Controller` starts, and every one
of the five watch functions, constructs its informer with a resync period of
30 minutes, whatever the configuration says. -/
theorem Controller_resyncPeriod_fixed (env : Env) (conf : Config)
    (eventHandler : handlers.Handler Obj σ) (n : Nat)
    (c : framework.Controller Obj σ)
    (hc : c ∈ launched (Controller env conf eventHandler (World.fresh Obj σ n)).2.trace) :
    c.resyncPeriod = 30 * time.Minute
      ∧ (∀ (client : Client) (store : Option cache.Store),
          (launched (watchPods client store eventHandler (World.fresh Obj σ n)).2.trace).map
              (fun p => p.resyncPeriod) = [30 * time.Minute]
          ∧ (launched (watchServices client store eventHandler
                (World.fresh Obj σ n)).2.trace).map
              (fun p => p.resyncPeriod) = [30 * time.Minute]
          ∧ (launched (watchReplicationControllers client store eventHandler
                (World.fresh Obj σ n)).2.trace).map
              (fun p => p.resyncPeriod) = [30 * time.Minute]
          ∧ (launched (watchDeployments client store eventHandler
                (World.fresh Obj σ n)).2.trace).map
              (fun p => p.resyncPeriod) = [30 * time.Minute]
          ∧ (launched (watchThirdPartyResources client store eventHandler
                (World.fresh Obj σ n)).2.trace).map
              (fun p => p.resyncPeriod) = [30 * time.Minute]) := by
  refine ⟨?_, fun client store => ⟨rfl, rfl, rfl, rfl, rfl⟩⟩
  exact fromWatch_resyncPeriod eventHandler c
    (launched_Controller_fromWatch env conf eventHandler n c hc)

/-- With every toggle set and no resync period configured, a started pipeline
has the 30 minute period. -/
theorem Controller_resyncPeriod_fixed_witness :
    ∃ c ∈ launched (Controller sampleEnv confAllOn (engine.recorder String)
        (World.fresh _ _ 0)).2.trace,
      c.resyncPeriod = 30 * time.Minute :=
  ⟨_, List.head_mem sample_launched_ne_nil,
    (Controller_resyncPeriod_fixed sampleEnv confAllOn (engine.recorder String) 0 _
      (List.head_mem sample_launched_ne_nil)).1⟩

/-- C4 fails as stated: the configuration asks for five minutes, and the pods
pipeline is constructed with thirty. -/
theorem Controller_resyncPeriod_not_configured :
    confPodFiveMinutes.ResyncPeriod = some (5 * time.Minute)
      ∧ (launched (Controller sampleEnv confPodFiveMinutes (engine.recorder String)
          (World.fresh _ _ 0)).2.trace).map (fun c => c.resyncPeriod)
        = [30 * time.Minute]
      ∧ (launched (Controller sampleEnv confPodFiveMinutes (engine.recorder String)
          (World.fresh _ _ 0)).2.trace).map (fun c => c.resyncPeriod)
        ≠ [configuredResyncPeriod confPodFiveMinutes] := by
  refine ⟨rfl, rfl, ?_⟩
  decide

/-- C5, as the code has it: in every pipeline `Controller` starts, List and
Watch go through the same client to the same group and resource with the same
scope and selector, and hand on the caller's options unchanged.  Pods,
services and replication controllers use `api.NamespaceAll` and
`fields.Everything()`; deployments use `api.NamespaceAll` and only the
caller's options; the third-party-resources pipeline passes no namespace at
all and only the caller's options.  No pipeline names a single namespace. -/
theorem Controller_list_watch_scope (env : Env) (conf : Config)
    (eventHandler : handlers.Handler Obj σ) (n : Nat) (options : api.ListOptions)
    (c : framework.Controller Obj σ)
    (hc : c ∈ launched (Controller env conf eventHandler (World.fresh Obj σ n)).2.trace) :
    (c.lw.ListFunc options).verb = Verb.list
      ∧ (c.lw.WatchFunc options).verb = Verb.watch
      ∧ (c.lw.ListFunc options).client = (c.lw.WatchFunc options).client
      ∧ (c.lw.ListFunc options).group = (c.lw.WatchFunc options).group
      ∧ (c.lw.ListFunc options).resource = (c.lw.WatchFunc options).resource
      ∧ (c.lw.ListFunc options).namespaceScope = (c.lw.WatchFunc options).namespaceScope
      ∧ (c.lw.ListFunc options).fieldSelector = (c.lw.WatchFunc options).fieldSelector
      ∧ (c.lw.ListFunc options).options = options
      ∧ (c.lw.WatchFunc options).options = options
      ∧ ((c.objType = ObjType.Pod ∨ c.objType = ObjType.Service
            ∨ c.objType = ObjType.ReplicationController) →
          (c.lw.ListFunc options).namespaceScope = some api.NamespaceAll
            ∧ (c.lw.ListFunc options).fieldSelector = some fields.Everything)
      ∧ (c.objType = ObjType.Deployment →
          (c.lw.ListFunc options).namespaceScope = some api.NamespaceAll
            ∧ (c.lw.ListFunc options).fieldSelector = none)
      ∧ (c.objType = ObjType.ThirdPartyResource →
          (c.lw.ListFunc options).namespaceScope = none
            ∧ (c.lw.ListFunc options).fieldSelector = none)
      ∧ (∀ ns, (c.lw.ListFunc options).namespaceScope = some ns → ns = api.NamespaceAll) := by
  obtain ⟨client, id, h | h | h | h | h⟩ :=
    launched_Controller_fromWatch env conf eventHandler n c hc <;>
    simp [started, watchPods, watchServices, watchReplicationControllers, watchDeployments,
      watchThirdPartyResources, framework.NewInformer, framework.NewIndexerInformer,
      framework.goRun, World.emit, World.fresh, launched] at h <;>
    subst h <;>
    simp [cache.NewListWatchFromClient]

/-- With every toggle set, the first started pipeline lists and watches one
collection. -/
theorem Controller_list_watch_scope_witness :
    ∃ c ∈ launched (Controller sampleEnv confAllOn (engine.recorder String)
        (World.fresh _ _ 0)).2.trace,
      (c.lw.ListFunc someOptions).resource = (c.lw.WatchFunc someOptions).resource
        ∧ (c.lw.ListFunc someOptions).namespaceScope
            = (c.lw.WatchFunc someOptions).namespaceScope :=
  ⟨_, List.head_mem sample_launched_ne_nil,
    (Controller_list_watch_scope sampleEnv confAllOn (engine.recorder String) 0 someOptions _
      (List.head_mem sample_launched_ne_nil)).2.2.2.2.1,
    (Controller_list_watch_scope sampleEnv confAllOn (engine.recorder String) 0 someOptions _
      (List.head_mem sample_launched_ne_nil)).2.2.2.2.2.1⟩

/-- C5 fails as stated for the pipeline of the ReplicaSet toggle: its List and
Watch calls are not given `api.NamespaceAll`, they are given no namespace. -/
theorem Controller_thirdpartyresources_no_namespace :
    (launched (Controller sampleEnv confReplicaSetOnly (engine.recorder String)
        (World.fresh _ _ 0)).2.trace).map
      (fun c => ((c.lw.ListFunc someOptions).namespaceScope,
        (c.lw.WatchFunc someOptions).namespaceScope)) = [(none, none)]
      ∧ (launched (Controller sampleEnv confReplicaSetOnly (engine.recorder String)
        (World.fresh _ _ 0)).2.trace).map
      (fun c => ((c.lw.ListFunc someOptions).namespaceScope,
        (c.lw.WatchFunc someOptions).namespaceScope))
        ≠ [(some api.NamespaceAll, some api.NamespaceAll)] := by
  refine ⟨rfl, ?_⟩
  decide

/-- C6, as the code has it: the stores that `watchDeployments` and
`watchThirdPartyResources` build and return have exactly one secondary index,
`cache.NamespaceIndex` keyed by `cache.MetaNamespaceIndexFunc`; the stores
that `watchPods`, `watchServices` and `watchReplicationControllers` build and
return are plain stores without a secondary index.  In each case the returned
store is the one the started controller feeds. -/
theorem watch_store_indexers (client : Client) (store : Option cache.Store)
    (eventHandler : handlers.Handler Obj σ) (w : World Obj σ) :
    (watchDeployments client store eventHandler w).1.indexers
        = [(cache.NamespaceIndex, cache.IndexFunc.MetaNamespaceIndexFunc)]
      ∧ (watchThirdPartyResources client store eventHandler w).1.indexers
        = [(cache.NamespaceIndex, cache.IndexFunc.MetaNamespaceIndexFunc)]
      ∧ (watchPods client store eventHandler w).1.indexers = []
      ∧ (watchServices client store eventHandler w).1.indexers = []
      ∧ (watchReplicationControllers client store eventHandler w).1.indexers = []
      ∧ (launched (watchDeployments client store eventHandler
            (World.fresh Obj σ w.next)).2.trace).map (fun c => c.clientState)
          = [(watchDeployments client store eventHandler w).1]
      ∧ (launched (watchThirdPartyResources client store eventHandler
            (World.fresh Obj σ w.next)).2.trace).map (fun c => c.clientState)
          = [(watchThirdPartyResources client store eventHandler w).1]
      ∧ (launched (watchPods client store eventHandler
            (World.fresh Obj σ w.next)).2.trace).map (fun c => c.clientState)
          = [(watchPods client store eventHandler w).1]
      ∧ (launched (watchServices client store eventHandler
            (World.fresh Obj σ w.next)).2.trace).map (fun c => c.clientState)
          = [(watchServices client store eventHandler w).1]
      ∧ (launched (watchReplicationControllers client store eventHandler
            (World.fresh Obj σ w.next)).2.trace).map (fun c => c.clientState)
          = [(watchReplicationControllers client store eventHandler w).1] :=
  ⟨rfl, rfl, rfl, rfl, rfl, rfl, rfl, rfl, rfl, rfl⟩

/-- C6 fails as stated for `watchPods`: the store it returns has no index by
namespace. -/
theorem watchPods_store_not_indexed :
    (cache.NamespaceIndex, cache.IndexFunc.MetaNamespaceIndexFunc)
      ∉ (watchPods { config := { Host := "https://127.0.0.1:6443" } } none
          (engine.recorder String) (World.fresh _ _ 0)).1.indexers := by
  decide

/-- C7: if loading the client configuration returns an error, `Controller`
exits through `logrus.Fatal` with that error as its only effect: no client is
created, no pipeline is started and the listener is not bound, whatever the
toggles.  If it returns a configuration, `Controller` creates the client from
it and goes on to the toggles, starting the kinds they select. -/
theorem Controller_fatal_on_config_error (env : Env) (conf : Config)
    (eventHandler : handlers.Handler Obj σ) (n : Nat) :
    (∀ err, env.ClientConfig = Except.error err →
        Controller env conf eventHandler (World.fresh Obj σ n)
            = (Outcome.exited 1, { next := n, trace := [Effect.fatal err] })
          ∧ clientsCreated (Controller env conf eventHandler (World.fresh Obj σ n)).2.trace = []
          ∧ launched (Controller env conf eventHandler (World.fresh Obj σ n)).2.trace = []
          ∧ listened (Controller env conf eventHandler (World.fresh Obj σ n)).2.trace = [])
      ∧ (∀ kubeConfig, env.ClientConfig = Except.ok kubeConfig →
          clientsCreated (Controller env conf eventHandler (World.fresh Obj σ n)).2.trace
              = [kubeConfig]
            ∧ (launched (Controller env conf eventHandler (World.fresh Obj σ n)).2.trace).map
                (fun c => c.objType) = startedKinds conf.Resource) := by
  refine ⟨?_, ?_⟩
  · intro err herr
    rw [launched_of_error env conf eventHandler _ err herr]
    exact ⟨rfl, rfl, rfl, rfl⟩
  · intro kubeConfig hload
    refine ⟨?_, launched_objTypes env conf eventHandler n kubeConfig hload⟩
    obtain ⟨⟨a, b, c, d, e⟩, r⟩ := conf
    cases hl : env.ListenAndServe ":8081" <;>
    cases a <;> cases b <;> cases c <;> cases d <;> cases e <;>
      simp [Controller, hload, hl, watchPods, watchServices, watchReplicationControllers,
        watchDeployments, watchThirdPartyResources, framework.NewInformer,
        framework.NewIndexerInformer, framework.goRun, client.NewOrDie, logrus.Fatal,
        World.emit, World.fresh, clientsCreated]

/-- With every toggle set and no client configuration, `Controller` only
calls `logrus.Fatal`. -/
theorem Controller_fatal_on_config_error_witness :
    Controller noConfigEnv confAllOn (engine.recorder String) (World.fresh _ _ 0)
        = (Outcome.exited 1, { next := 0, trace := [Effect.fatal
            { msg := "invalid configuration: no configuration has been provided" }] })
      ∧ launched (Controller noConfigEnv confAllOn (engine.recorder String)
          (World.fresh _ _ 0)).2.trace = []
      ∧ (launched (Controller sampleEnv confAllOn (engine.recorder String)
          (World.fresh _ _ 0)).2.trace).map (fun c => c.objType) = startedKinds allOn :=
  ⟨((Controller_fatal_on_config_error noConfigEnv confAllOn (engine.recorder String) 0).1
      _ rfl).1,
   ((Controller_fatal_on_config_error noConfigEnv confAllOn (engine.recorder String) 0).1
      _ rfl).2.2.1,
   ((Controller_fatal_on_config_error sampleEnv confAllOn (engine.recorder String) 0).2
      _ rfl).2⟩

/-- C8: the store a watch function returns does not depend on the store
argument it is given; in every run of `Controller` the store of each started
pipeline is the one made by the construction that made its controller, and
the stores of the started pipelines are pairwise different. -/
theorem Controller_stores_not_shared (env : Env) (conf : Config)
    (eventHandler : handlers.Handler Obj σ) (n : Nat) (client : Client)
    (s1 s2 : Option cache.Store) (w : World Obj σ) :
    (watchPods client s1 eventHandler w = watchPods client s2 eventHandler w
        ∧ watchServices client s1 eventHandler w = watchServices client s2 eventHandler w
        ∧ watchReplicationControllers client s1 eventHandler w
            = watchReplicationControllers client s2 eventHandler w
        ∧ watchDeployments client s1 eventHandler w = watchDeployments client s2 eventHandler w
        ∧ watchThirdPartyResources client s1 eventHandler w
            = watchThirdPartyResources client s2 eventHandler w)
      ∧ (∀ c ∈ launched (Controller env conf eventHandler (World.fresh Obj σ n)).2.trace,
          c.clientState.id = c.id ∧ FromWatch eventHandler c)
      ∧ ((launched (Controller env conf eventHandler (World.fresh Obj σ n)).2.trace).map
          (fun c => c.clientState.id)).Nodup := by
  refine ⟨⟨rfl, rfl, rfl, rfl, rfl⟩, ?_, launched_store_ids_nodup env conf eventHandler n⟩
  intro c hc
  have hw := launched_Controller_fromWatch env conf eventHandler n c hc
  exact ⟨fromWatch_stores eventHandler c hw, hw⟩

/-- With every toggle set, a started pipeline owns the store of its own
construction. -/
theorem Controller_stores_not_shared_witness :
    ∃ c ∈ launched (Controller sampleEnv confAllOn (engine.recorder String)
        (World.fresh _ _ 0)).2.trace,
      c.clientState.id = c.id :=
  ⟨_, List.head_mem sample_launched_ne_nil,
    ((Controller_stores_not_shared sampleEnv confAllOn (engine.recorder String) 0
      { config := { Host := "" } } none none (World.fresh _ _ 0)).2.1 _
      (List.head_mem sample_launched_ne_nil)).1⟩

/-- C9: when the client configuration loads, under any toggles, `Controller`
calls `http.ListenAndServe` exactly once, on ":8081", and starts no pipeline
after that call; it never returns: it either keeps serving, or, when the
listener returns an error, exits through `logrus.Fatal` with that error. -/
theorem Controller_liveness (env : Env) (conf : Config)
    (eventHandler : handlers.Handler Obj σ) (n : Nat) (kubeConfig : KubeConfig)
    (hload : env.ClientConfig = Except.ok kubeConfig) :
    (launched (Controller env conf eventHandler (World.fresh Obj σ n)).2.trace).map
        (fun c => c.objType) = startedKinds conf.Resource
      ∧ listened (Controller env conf eventHandler (World.fresh Obj σ n)).2.trace = [":8081"]
      ∧ launched (afterListen
          (Controller env conf eventHandler (World.fresh Obj σ n)).2.trace) = []
      ∧ (Controller env conf eventHandler (World.fresh Obj σ n)).1 ≠ Outcome.returned
      ∧ (∀ err, env.ListenAndServe ":8081" = some err →
          (Controller env conf eventHandler (World.fresh Obj σ n)).1 = Outcome.exited 1
            ∧ fatals (Controller env conf eventHandler (World.fresh Obj σ n)).2.trace = [err]
            ∧ fatals (afterListen
                (Controller env conf eventHandler (World.fresh Obj σ n)).2.trace) = [err])
      ∧ (env.ListenAndServe ":8081" = none →
          (Controller env conf eventHandler (World.fresh Obj σ n)).1 = Outcome.serving
            ∧ fatals (Controller env conf eventHandler (World.fresh Obj σ n)).2.trace = []) := by
  refine ⟨launched_objTypes env conf eventHandler n kubeConfig hload, ?_⟩
  obtain ⟨⟨a, b, c, d, e⟩, r⟩ := conf
  cases hl : env.ListenAndServe ":8081" <;>
  cases a <;> cases b <;> cases c <;> cases d <;> cases e <;>
    simp [Controller, hload, hl, watchPods, watchServices, watchReplicationControllers,
      watchDeployments, watchThirdPartyResources, framework.NewInformer,
      framework.NewIndexerInformer, framework.goRun, client.NewOrDie, logrus.Fatal,
      World.emit, World.fresh, launched, listened, fatals, afterListen]

/-- With no toggle set and a busy port, `Controller` still binds ":8081" once
and then exits through `logrus.Fatal`. -/
theorem Controller_liveness_witness :
    listened (Controller busyPortEnv confAllOff (engine.recorder String)
        (World.fresh _ _ 0)).2.trace = [":8081"]
      ∧ (Controller busyPortEnv confAllOff (engine.recorder String)
        (World.fresh _ _ 0)).1 ≠ Outcome.returned :=
  ⟨(Controller_liveness busyPortEnv confAllOff (engine.recorder String) 0
      { Host := "https://127.0.0.1:6443" } rfl).2.1,
   (Controller_liveness busyPortEnv confAllOff (engine.recorder String) 0
      { Host := "https://127.0.0.1:6443" } rfl).2.2.2.1⟩

/-- C10, as the engine of the specification has it: in every pipeline
`Controller` starts, when `Added(K,v1)`, `Modified(K,v2)`, `Modified(K,v3)` are
all pushed before the queue is drained, the handler is called exactly once:
`ObjectUpdated(prior, v3)` when the store holds a prior entry for `K`, and
`ObjectCreated(v3)` when it holds none; no call is made for the deltas that
carry `v1` and `v2`, and the store ends with `v3` under `K`. -/
theorem pipeline_coalesces {V : Type} (env : Env) (conf : Config)
    (eventHandler : handlers.Handler (engine.Object V) σ) (n : Nat)
    (c : framework.Controller (engine.Object V) σ)
    (hc : c ∈ launched (Controller env conf eventHandler (World.fresh _ σ n)).2.trace)
    (K : String) (v1 v2 v3 : V) (st : engine.IndexedStore V) (s : σ) :
    engine.pipeline c (engine.coalescingDeltas K v1 v2 v3) (st, s)
      = match st.Get K with
        | none =>
          (st.Apply K (some { key := K, value := v3 }),
            eventHandler.ObjectCreated { key := K, value := v3 } s)
        | some prior =>
          (st.Apply K (some { key := K, value := v3 }),
            eventHandler.ObjectUpdated prior { key := K, value := v3 } s) := by
  have hfuncs := fromWatch_handler_funcs eventHandler c
    (launched_Controller_fromWatch env conf eventHandler n c hc)
  cases hget : st.Get K <;>
    simp [engine.pipeline, engine.coalescingDeltas, engine.DeltaQueue.Push, engine.drain,
      engine.dispatch, engine.OnCreate, engine.OnUpdate, hfuncs, hget]

/-- With the recording handler and an empty store, the pods pipeline reports
one creation of the last value. -/
theorem pipeline_coalesces_witness :
    ∃ c ∈ launched (Controller sampleEnv confAllOn (engine.recorder (engine.Object Nat))
        (World.fresh _ _ 0)).2.trace,
      engine.pipeline c (engine.coalescingDeltas "ns/a" 1 2 3) (fun _ => none, [])
        = match engine.IndexedStore.Get (fun _ => none) "ns/a" with
          | none =>
            (engine.IndexedStore.Apply (fun _ => none) "ns/a"
                (some { key := "ns/a", value := 3 }),
              (engine.recorder (engine.Object Nat)).ObjectCreated
                { key := "ns/a", value := 3 } [])
          | some prior =>
            (engine.IndexedStore.Apply (fun _ => none) "ns/a"
                (some { key := "ns/a", value := 3 }),
              (engine.recorder (engine.Object Nat)).ObjectUpdated prior
                { key := "ns/a", value := 3 } []) :=
  have hne : launched (Controller sampleEnv confAllOn (engine.recorder (engine.Object Nat))
      (World.fresh _ _ 0)).2.trace ≠ [] := by
    intro h
    have := congrArg List.length h
    revert this
    rw [← List.length_map, launched_objTypes sampleEnv confAllOn _ 0 _ rfl]
    decide
  ⟨_, List.head_mem hne,
    pipeline_coalesces sampleEnv confAllOn (engine.recorder (engine.Object Nat)) 0 _
      (List.head_mem hne) "ns/a" 1 2 3 (fun _ => none) []⟩

/-- C10 fails as stated when the store has no entry for the key: the one
event the handler receives is a Create, not an Update. -/
theorem pipeline_first_sight_is_create :
    (launched (Controller sampleEnv confPodFiveMinutes (engine.recorder (engine.Object Nat))
        (World.fresh _ _ 0)).2.trace).map
      (fun c => (engine.pipeline c (engine.coalescingDeltas "ns/a" 1 2 3)
        (fun _ => none, [])).2)
      = [[engine.Event.Create { key := "ns/a", value := 3 }]]
    ∧ ¬ ∃ prior, (launched (Controller sampleEnv confPodFiveMinutes
        (engine.recorder (engine.Object Nat)) (World.fresh _ _ 0)).2.trace).map
      (fun c => (engine.pipeline c (engine.coalescingDeltas "ns/a" 1 2 3)
        (fun _ => none, [])).2)
      = [[engine.Event.Update prior { key := "ns/a", value := 3 }]] := by
  have h : (launched (Controller sampleEnv confPodFiveMinutes
        (engine.recorder (engine.Object Nat)) (World.fresh _ _ 0)).2.trace).map
      (fun c => (engine.pipeline c (engine.coalescingDeltas "ns/a" 1 2 3)
        (fun _ => none, [])).2)
      = [[engine.Event.Create { key := "ns/a", value := 3 }]] := by
    rfl
  refine ⟨h, ?_⟩
  rintro ⟨prior, hp⟩
  rw [h] at hp
  simp at hp

end Kubewatch
